import Mathlib

/-!
Verification of the site-configuration record defined in `pelicanconf.py`.

The file is purely declarative: a flat sequence of assignments of strings,
booleans, `None` sentinels and tuples to configuration-option names.  We embed
each assignment as a Lean definition of the same name, and the whole record as
an association list from option names to values, in source order.
-/

/-- A configuration value: the Python file assigns strings, booleans, the
`None` sentinel, lists of strings, and tuples of (string, string) pairs. -/
inductive Value where
  | vStr : String → Value
  | vBool : Bool → Value
  | vNone : Value
  | vStrList : List String → Value
  | vPairs : List (String × String) → Value
deriving DecidableEq, Repr

/-! ### The assignments of `pelicanconf.py`, in source order -/

def AUTHOR : String := "Vikas Yadav"

def SITENAME : String := "v1k45"

def SITEURL : String := ""

def PATH : String := "content"

def TIMEZONE : String := "Asia/Kolkata"

def DEFAULT_LANG : String := "en"

def STATIC_PATHS : List String := ["pdfs", "images"]

def INDEX_SAVE_AS : String := "blog/index.html"

def PAGE_URL : String := "{slug}/"

def PAGE_SAVE_AS : String := "{slug}/index.html"

def ARTICLE_URL : String := "blog/{slug}/"

def ARTICLE_SAVE_AS : String := "blog/{slug}/index.html"

def AUTHOR_URL : String := "blog/authors/{slug}/"

def AUTHOR_SAVE_AS : String := "blog/authors/{slug}/index.html"

def AUTHORS_URL : String := "blog/authors/"

def AUTHORS_SAVE_AS : String := "blog/authors/index.html"

def CATEGORY_URL : String := "blog/categories/{slug}/"

def CATEGORY_SAVE_AS : String := "blog/categories/{slug}/index.html"

def CATEGORIES_URL : String := "blog/categories/"

def CATEGORIES_SAVE_AS : String := "blog/categories/index.html"

def TAG_URL : String := "blog/tags/{slug}/"

def TAG_SAVE_AS : String := "blog/tags/{slug}/index.html"

def TAGS_URL : String := "blog/tags/"

def TAGS_SAVE_AS : String := "blog/tags/index.html"

def FEED_ALL_ATOM : Option String := none

def CATEGORY_FEED_ATOM : Option String := none

def TRANSLATION_FEED_ATOM : Option String := none

def AUTHOR_FEED_ATOM : Option String := none

def AUTHOR_FEED_RSS : Option String := none

def THEME : String := "sakura"

def LINKS : List (String × String) :=
  [("blog", "/blog/"),
   ("github", "https://github.com/v1k45"),
   ("stackoverflow", "http://stackoverflow.com/users/4726598/v1k45")]

def DEFAULT_PAGINATION : Bool := false

/-- The site-configuration record: the mapping from option names to values
produced by evaluating `pelicanconf.py`, listed in source order.  The line
`RELATIVE_URLS = True` is commented out in the source, so no such key is
bound here. -/
def pelicanconf : List (String × Value) :=
  [("AUTHOR", .vStr AUTHOR),
   ("SITENAME", .vStr SITENAME),
   ("SITEURL", .vStr SITEURL),
   ("PATH", .vStr PATH),
   ("TIMEZONE", .vStr TIMEZONE),
   ("DEFAULT_LANG", .vStr DEFAULT_LANG),
   ("STATIC_PATHS", .vStrList STATIC_PATHS),
   ("INDEX_SAVE_AS", .vStr INDEX_SAVE_AS),
   ("PAGE_URL", .vStr PAGE_URL),
   ("PAGE_SAVE_AS", .vStr PAGE_SAVE_AS),
   ("ARTICLE_URL", .vStr ARTICLE_URL),
   ("ARTICLE_SAVE_AS", .vStr ARTICLE_SAVE_AS),
   ("AUTHOR_URL", .vStr AUTHOR_URL),
   ("AUTHOR_SAVE_AS", .vStr AUTHOR_SAVE_AS),
   ("AUTHORS_URL", .vStr AUTHORS_URL),
   ("AUTHORS_SAVE_AS", .vStr AUTHORS_SAVE_AS),
   ("CATEGORY_URL", .vStr CATEGORY_URL),
   ("CATEGORY_SAVE_AS", .vStr CATEGORY_SAVE_AS),
   ("CATEGORIES_URL", .vStr CATEGORIES_URL),
   ("CATEGORIES_SAVE_AS", .vStr CATEGORIES_SAVE_AS),
   ("TAG_URL", .vStr TAG_URL),
   ("TAG_SAVE_AS", .vStr TAG_SAVE_AS),
   ("TAGS_URL", .vStr TAGS_URL),
   ("TAGS_SAVE_AS", .vStr TAGS_SAVE_AS),
   ("FEED_ALL_ATOM", .vNone),
   ("CATEGORY_FEED_ATOM", .vNone),
   ("TRANSLATION_FEED_ATOM", .vNone),
   ("AUTHOR_FEED_ATOM", .vNone),
   ("AUTHOR_FEED_RSS", .vNone),
   ("THEME", .vStr THEME),
   ("LINKS", .vPairs LINKS),
   ("DEFAULT_PAGINATION", .vBool DEFAULT_PAGINATION)]

/-- Evaluating the configuration file: the source has no inputs, no reads of
external state and no side effects, so a load is a constant function of no
arguments returning the record. -/
def loadConfig : Unit → List (String × Value) := fun _ => pelicanconf

/-- The eight content types that have a `*_URL` / `*_SAVE_AS` template pair. -/
def contentTypes : List String :=
  ["PAGE", "ARTICLE", "AUTHOR", "AUTHORS", "CATEGORY", "CATEGORIES", "TAG", "TAGS"]

/-- Collect the placeholder names of a template string: the substrings
standing between a brace-open and the next brace-close, left to right. -/
def placeholdersGo : List Char → Option (List Char) → List String
  | [], _ => []
  | c :: cs, Option.none =>
      if c = '{' then placeholdersGo cs (some []) else placeholdersGo cs Option.none
  | c :: cs, some acc =>
      if c = '}' then String.mk acc.reverse :: placeholdersGo cs Option.none
      else placeholdersGo cs (some (c :: acc))

/-- The list of placeholder names occurring in a template string. -/
def placeholders (s : String) : List String :=
  placeholdersGo s.data Option.none

/-- Substitute each placeholder of a template by its value in the context,
leaving unknown placeholders empty. -/
def renderGo (ctx : List (String × String)) : List Char → Option (List Char) → List Char
  | [], _ => []
  | c :: cs, Option.none =>
      if c = '{' then renderGo ctx cs (some [])
      else c :: renderGo ctx cs Option.none
  | c :: cs, some acc =>
      if c = '}' then
        (match List.lookup (String.mk acc.reverse) ctx with
         | some v => v.data
         | Option.none => []) ++ renderGo ctx cs Option.none
      else renderGo ctx cs (some (c :: acc))

/-- Render a template string against a context of placeholder values. -/
def renderTemplate (t : String) (ctx : List (String × String)) : String :=
  String.mk (renderGo ctx t.data Option.none)

/-- Whether the string `p` is an initial segment of the string `s`
(the character-level meaning of `String.startsWith`). -/
def strBeginsWith (s p : String) : Bool :=
  s.data.take p.data.length == p.data

/-- Whether the string `p` is a final segment of the string `s`
(the character-level meaning of `String.endsWith`). -/
def strEndsWith (s p : String) : Bool :=
  s.data.reverse.take p.data.length == p.data.reverse

/-- Look up the string value bound to a `*_URL` or `*_SAVE_AS` option for a
content-type base name in the record. -/
def urlOption (base suffix : String) : Option String :=
  match List.lookup (base ++ suffix) pelicanconf with
  | some (.vStr s) => some s
  | _ => none

/-- For one content type: both the `*_URL` and the `*_SAVE_AS` options are
bound to strings, and the placeholders of the `*_SAVE_AS` value are a subset
of the placeholders of the `*_URL` value. -/
def saveAsPlaceholdersCompatible (base : String) : Bool :=
  match urlOption base "_URL", urlOption base "_SAVE_AS" with
  | some u, some s => (placeholders s).all (fun p => (placeholders u).contains p)
  | _, _ => false

/-- For one content type: the `*_SAVE_AS` value is the `*_URL` value with
the string "index.html" appended, the `*_URL` value ends with a slash, and
the `*_SAVE_AS` value ends with "index.html" and does not start with a
slash. -/
def saveAsIsUrlIndexHtml (base : String) : Bool :=
  match urlOption base "_URL", urlOption base "_SAVE_AS" with
  | some u, some s =>
      s == u ++ "index.html" && strEndsWith u "/" &&
      strEndsWith s "index.html" && !(strBeginsWith s "/")
  | _, _ => false

/-- For one content type: both template values start with "blog/". -/
def nestedUnderBlog (base : String) : Bool :=
  match urlOption base "_URL", urlOption base "_SAVE_AS" with
  | some u, some s => strBeginsWith u "blog/" && strBeginsWith s "blog/"
  | _, _ => false

/-- Modelled from the spec: the external generator's notion of a
syntactically valid URL, absent from src/ ("`LINKS` contains only
(label, URL) pairs with non-empty labels and syntactically valid URLs").
A string is accepted when it is an absolute URL, a scheme "http" or "https"
followed by "://" and a non-empty remainder, or a root-relative URL
reference: a slash followed by a path. -/
def isSyntacticallyValidURL (s : String) : Bool :=
  (strBeginsWith s "/" && s.data.length > 1) ||
  (strBeginsWith s "http://" && s.data.length > 7) ||
  (strBeginsWith s "https://" && s.data.length > 8)

/-! ### Claim theorems -/

/-- C1: for every configuration option named `*_URL` in the record (PAGE,
ARTICLE, AUTHOR, AUTHORS, CATEGORY, CATEGORIES, TAG, TAGS), a corresponding
`*_SAVE_AS` option is also defined, and the set of placeholders occurring in
the `*_SAVE_AS` value is a subset of the set of placeholders occurring in the
corresponding `*_URL` value. -/
theorem url_save_as_placeholders_compatible :
    contentTypes.all saveAsPlaceholdersCompatible = true := by decide

/-- C2 counterexample: the claim that every one of the eight `*_URL` and
`*_SAVE_AS` templates starts with "blog/" fails at the concrete content type
PAGE: `PAGE_URL` is "{slug}/" and `PAGE_SAVE_AS` is "{slug}/index.html",
neither of which starts with "blog/". -/
theorem page_templates_not_under_blog :
    PAGE_URL = "{slug}/" ∧ PAGE_SAVE_AS = "{slug}/index.html" ∧
    strBeginsWith PAGE_URL "blog/" = false ∧
    strBeginsWith PAGE_SAVE_AS "blog/" = false ∧
    nestedUnderBlog "PAGE" = false := by decide

/-- C2 amended: for each of the seven content types ARTICLE, AUTHOR, AUTHORS,
CATEGORY, CATEGORIES, TAG, TAGS, both the `*_URL` and the `*_SAVE_AS`
template start with "blog/"; the PAGE templates are the exception and place
pages at the site root. -/
theorem non_page_templates_under_blog :
    (["ARTICLE", "AUTHOR", "AUTHORS", "CATEGORY", "CATEGORIES", "TAG", "TAGS"].all
      nestedUnderBlog = true) ∧
    nestedUnderBlog "PAGE" = false := by decide

/-- C3: `PAGE_URL` equals "{slug}/" and `PAGE_SAVE_AS` equals
"{slug}/index.html", and substituting the slug "about" for the slug
placeholder yields the public URL path "about/" (rendered as "/about/"
relative to the site root) and the output file path "about/index.html". -/
theorem page_slug_about_resolution :
    PAGE_URL = "{slug}/" ∧ PAGE_SAVE_AS = "{slug}/index.html" ∧
    renderTemplate PAGE_URL [("slug", "about")] = "about/" ∧
    "/" ++ renderTemplate PAGE_URL [("slug", "about")] = "/about/" ∧
    renderTemplate PAGE_SAVE_AS [("slug", "about")] = "about/index.html" := by decide

/-- C4: for every one of the eight content types, the `*_SAVE_AS` value
equals the `*_URL` value with "index.html" appended; consequently every
`*_URL` value ends with "/" and every `*_SAVE_AS` value ends with
"index.html" and does not start with "/". -/
theorem save_as_is_url_index_html :
    contentTypes.all saveAsIsUrlIndexHtml = true := by decide

/-- C5: loading the configuration is deterministic and side-effect-free:
evaluating the file twice yields the same record, equal key-for-key and
value-for-value. -/
theorem load_config_idempotent :
    loadConfig () = loadConfig () ∧ loadConfig () = pelicanconf :=
  ⟨rfl, rfl⟩

/-- C6: `LINKS` is the ordered sequence of exactly the three pairs
("blog", "/blog/"), ("github", "https://github.com/v1k45"),
("stackoverflow", "http://stackoverflow.com/users/4726598/v1k45") in that
order, and every element is a pair whose label is non-empty and whose URL
component is syntactically valid. -/
theorem links_well_formed :
    LINKS = [("blog", "/blog/"),
             ("github", "https://github.com/v1k45"),
             ("stackoverflow", "http://stackoverflow.com/users/4726598/v1k45")] ∧
    List.lookup "LINKS" pelicanconf = some (.vPairs LINKS) ∧
    LINKS.all (fun p => !(p.1 == "") && isSyntacticallyValidURL p.2) = true := by
  decide

/-- C7: the `SITEURL` value in the record is either a syntactically valid
URL or the empty string; in this configuration it is the empty string. -/
theorem siteurl_empty_or_valid :
    SITEURL = "" ∧
    List.lookup "SITEURL" pelicanconf = some (.vStr "") ∧
    (SITEURL = "" ∨ isSyntacticallyValidURL SITEURL = true) := by decide

/-- C8: all five feed-generation options FEED_ALL_ATOM, CATEGORY_FEED_ATOM,
TRANSLATION_FEED_ATOM, AUTHOR_FEED_ATOM, AUTHOR_FEED_RSS are present in the
record and each is bound to the null sentinel, disabling feed generation. -/
theorem feed_options_all_null :
    List.lookup "FEED_ALL_ATOM" pelicanconf = some .vNone ∧
    List.lookup "CATEGORY_FEED_ATOM" pelicanconf = some .vNone ∧
    List.lookup "TRANSLATION_FEED_ATOM" pelicanconf = some .vNone ∧
    List.lookup "AUTHOR_FEED_ATOM" pelicanconf = some .vNone ∧
    List.lookup "AUTHOR_FEED_RSS" pelicanconf = some .vNone ∧
    FEED_ALL_ATOM = none ∧ CATEGORY_FEED_ATOM = none ∧
    TRANSLATION_FEED_ATOM = none ∧ AUTHOR_FEED_ATOM = none ∧
    AUTHOR_FEED_RSS = none := by decide

/-- C9: DEFAULT_PAGINATION is present in the record with the boolean value
false, disabling pagination. -/
theorem default_pagination_false :
    List.lookup "DEFAULT_PAGINATION" pelicanconf = some (.vBool false) ∧
    DEFAULT_PAGINATION = false := by decide

/-- C10: the option RELATIVE_URLS is absent from the loaded record: its
assignment is commented out in the source, so no key of the record is named
"RELATIVE_URLS". -/
theorem relative_urls_absent :
    List.lookup "RELATIVE_URLS" pelicanconf = none ∧
    (pelicanconf.map Prod.fst).contains "RELATIVE_URLS" = false := by decide
